import Mathlib

/-!
Speech-to-text front end: the interaction logic of `src/App.jsx`.

A shallow embedding of the `App` component's state and event handlers.

* The six `useState` cells and the `mediaRecorderRef` become the fields of `AppState`.
  A handler is a function on `AppState`; a `setX(v)` call is a field update, and a
  functional update `setX(prev => ...)` reads the field of the state it is applied to.
* React applies the updates a handler enqueued even when the handler later throws, so a
  throwing handler still returns the state with the updates made before the throw,
  together with the name of the exception.
* Handlers run one at a time; an `async` handler is run from the point where its awaited
  promise settles.
* The `audioChunks` cell is written only outside React event handlers (in `startRecording`
  after its `await`, and in the recorder's `dataavailable` callback), so React renders those
  updates in a later task. The cell is therefore kept twice: `audioChunks` is the cell with
  every enqueued update applied, which is what a functional update reads, and
  `renderedAudioChunks` is the `audioChunks` constant of the render whose handlers are
  mounted, which is what `stopRecording` closes over. The event `render` brings the second
  up to the first.
* A handler that closes over a state cell (the `onstop` callback over `audioChunks`) is
  stored with the value it captured.
* The other cell a handler closes over, `selectedFile` in `handleTranscribe`, is read from the
  state the handler is applied to: the statements about `handleTranscribe` concern the
  handler of a render that shows that state.
* The browser collaborators are modelled by what the handlers observe of them:
  `URL.createObjectURL` hands out a fresh identifier for a `Blob`, a `MediaRecorder` has the
  three W3C states and a queued stop task, `fetch` either rejects or yields a body that
  `response.json()` decodes or fails to decode.
-/

namespace App

/-! ## Browser values -/

/-- A `Blob`: its bytes and its declared media type. `size` is the number of bytes. -/
structure Blob where
  content : List Nat
  type : String
  deriving DecidableEq, Repr

/-- The `size` attribute of a `Blob`. -/
def Blob.size (b : Blob) : Nat := b.content.length

/-- A `File` is a `Blob` with a name. -/
structure File extends Blob where
  name : String
  deriving DecidableEq, Repr

/-- The constructor `new Blob(parts, { type })` over a list of blobs: the bytes of the parts,
concatenated in order. -/
def Blob.new (parts : List Blob) (type : String) : Blob :=
  { content := parts.flatMap Blob.content, type := type }

/-- The constructor `new File(parts, name, { type })` over a list of blobs. -/
def File.new (parts : List Blob) (name : String) (type : String) : File :=
  { content := parts.flatMap Blob.content, type := type, name := name }

/-- An object URL handed out by `URL.createObjectURL`: a fresh identifier and the blob it
resolves to. -/
structure ObjectURL where
  id : Nat
  target : Blob
  deriving DecidableEq, Repr

/-- A JavaScript reference that may be `null`, `undefined` or an object. -/
inductive JSRef (α : Type) where
  | null : JSRef α
  | undefined : JSRef α
  | obj (a : α) : JSRef α
  deriving DecidableEq, Repr

/-- JavaScript truthiness of a reference: `null` and `undefined` are falsy, objects truthy. -/
def JSRef.truthy {α : Type} : JSRef α → Bool
  | .obj _ => true
  | _ => false

/-- A value decoded by `response.json()`. -/
inductive JSON where
  | null : JSON
  | bool (b : Bool) : JSON
  | num (n : Int) : JSON
  | str (s : String) : JSON
  | arr (xs : List JSON) : JSON
  | obj (members : List (String × JSON)) : JSON

/-- A JavaScript value held in the `transcript` cell: `undefined` or a decoded JSON value. -/
inductive JSValue where
  | undefined : JSValue
  | ofJSON (j : JSON) : JSValue

/-- Property read `data.key` on a decoded JSON value. On `null` the read throws
(`none`); on an object it yields the member of that name (the last one, as `JSON.parse`
keeps the last duplicate) or `undefined`; on any other value it yields `undefined`. -/
def JSON.getProp (data : JSON) (key : String) : Option JSValue :=
  match data with
  | .null => none
  | .obj members =>
    match members.reverse.lookup key with
    | some v => some (.ofJSON v)
    | none => some .undefined
  | _ => some .undefined

/-! ## The media recorder -/

/-- The `state` attribute of a `MediaRecorder`. -/
inductive RecordingState where
  | inactive
  | recording
  | paused
  deriving DecidableEq, Repr

/-- The `MediaRecorder` held in `mediaRecorderRef.current`.
`ondataavailable` tells whether the chunk handler of `startRecording` is installed;
`onstop` holds the `audioChunks` value captured by the handler that `stopRecording`
installed; `stopQueued` tells that `stop()` has queued the task that fires the recorder's
`stop` event. -/
structure MediaRecorder where
  state : RecordingState
  ondataavailable : Bool
  onstop : Option (List Blob)
  stopQueued : Bool
  deriving DecidableEq, Repr

/-- The method `MediaRecorder.start()` on a freshly constructed recorder. -/
def MediaRecorder.start (r : MediaRecorder) : MediaRecorder :=
  { r with state := .recording }

/-- The method `MediaRecorder.pause()`. -/
def MediaRecorder.pause (r : MediaRecorder) : MediaRecorder :=
  { r with state := .paused }

/-- The method `MediaRecorder.resume()`. -/
def MediaRecorder.resume (r : MediaRecorder) : MediaRecorder :=
  { r with state := .recording }

/-- The method `MediaRecorder.stop()`: nothing on an inactive recorder, otherwise the recorder
becomes inactive and its `stop` event is queued. -/
def MediaRecorder.stop (r : MediaRecorder) : MediaRecorder :=
  match r.state with
  | .inactive => r
  | _ => { r with state := .inactive, stopQueued := true }

/-! ## The transcription endpoint -/

/-- A `FormData` body: its entries, in the order they were appended. -/
abbrev FormData := List (String × File)

/-- The arguments of one `fetch` call. -/
structure Request where
  url : String
  method : String
  body : FormData
  deriving DecidableEq, Repr

/-- What awaiting `fetch(...)` and then `response.json()` yields: the `fetch` promise
rejects, or a response arrives whose body `response.json()` decodes (`some`) or fails to
decode (`none`). The status code is not part of it: the handler never reads it. -/
inductive FetchResult where
  | rejected : FetchResult
  | response (json : Option JSON) : FetchResult

/-- The template literal over `import.meta.env.VITE_API_URL`, which is `undefined` when the
variable is not configured. -/
def uploadURL (VITE_API_URL : Option String) : String :=
  (match VITE_API_URL with
    | some base => base
    | none => "undefined") ++ "/upload"

/-! ## Component state -/

/-- The state of the `App` component: the six `useState` cells, the `mediaRecorderRef`, the
counter from which `URL.createObjectURL` draws fresh identifiers, and the value the
`audioChunks` constant has in the render whose handlers are mounted. -/
structure AppState where
  selectedFile : JSRef File
  error : String
  audioURL : Option ObjectURL
  recording : Bool
  audioChunks : List Blob
  transcript : JSValue
  mediaRecorderRef : Option MediaRecorder
  nextObjectURL : Nat
  renderedAudioChunks : List Blob

/-- The state of the first render. -/
def AppState.initial : AppState :=
  { selectedFile := .null
    error := ""
    audioURL := none
    recording := false
    audioChunks := []
    transcript := .ofJSON (.str "")
    mediaRecorderRef := none
    nextObjectURL := 0
    renderedAudioChunks := [] }

/-- React renders the component: the handlers mounted from now on close over the current
value of the `audioChunks` cell. -/
def render (s : AppState) : AppState :=
  { s with renderedAudioChunks := s.audioChunks }

/-- The state a handler leaves, and the exception it threw, if any. -/
structure Outcome where
  state : AppState
  thrown : Option String

/-- The call `URL.createObjectURL(x)`: on a blob, a fresh URL that resolves to it; on
`undefined` it throws a `TypeError` (`none`). -/
def createObjectURL (x : Option Blob) (s : AppState) : Option (ObjectURL × AppState) :=
  match x with
  | some b => some ({ id := s.nextObjectURL, target := b },
                    { s with nextObjectURL := s.nextObjectURL + 1 })
  | none => none

/-! ## Event handlers -/

/-- The handler `handleFileChange`, on `file = e.target.files[0]` (`none` when the selection
is empty). -/
def handleFileChange (file : Option File) (s : AppState) : Outcome :=
  if (match file with
      | some f => f.type != "audio/mpeg"
      | none => false) then
    let s1 := { s with error := "Only MP3 files are allowed." }
    let s2 := { s1 with selectedFile := .null }
    { state := { s2 with audioURL := none }, thrown := none }
  else
    let s1 := { s with error := "" }
    let s2 := { s1 with selectedFile := (match file with
                                         | some f => .obj f
                                         | none => .undefined) }
    match createObjectURL (file.map File.toBlob) s2 with
    | some (url, s3) => { state := { s3 with audioURL := some url }, thrown := none }
    | none => { state := s2, thrown := some "TypeError" }

/-- The callback `ondataavailable` installed by `startRecording`, on `data = event.data`. -/
def ondataavailable (data : Blob) (s : AppState) : AppState :=
  if data.size > 0 then
    { s with audioChunks := s.audioChunks ++ [data] }
  else s

/-- The handler `startRecording`, run from the point where `getUserMedia` settles:
`getUserMedia` is the name of the rejection, or `.ok ()` when a stream is granted. -/
def startRecording (getUserMedia : Except String Unit) (s : AppState) : Outcome :=
  match getUserMedia with
  | .error e => { state := s, thrown := some e }
  | .ok () =>
    let r : MediaRecorder :=
      { state := .inactive, ondataavailable := false, onstop := none, stopQueued := false }
    let s1 := { s with mediaRecorderRef := some r }
    let s2 := { s1 with audioChunks := [] }
    let r1 := { r with ondataavailable := true }
    let r2 := r1.start
    let s3 := { s2 with mediaRecorderRef := some r2 }
    { state := { s3 with recording := true }, thrown := none }

/-- The handler `pauseRecording`. -/
def pauseRecording (s : AppState) : AppState :=
  match s.mediaRecorderRef with
  | none => s
  | some r =>
    if r.state = .recording then
      { s with mediaRecorderRef := some r.pause }
    else if r.state = .paused then
      { s with mediaRecorderRef := some r.resume }
    else s

/-- The callback `onstop` installed by `stopRecording`; `audioChunks` is the value of the
cell in the render whose `stopRecording` installed it. -/
def onstop (audioChunks : List Blob) (s : AppState) : AppState :=
  let audioBlob := Blob.new audioChunks "audio/webm"
  let audioFile := File.new [audioBlob] "recorded_audio.webm" "audio/webm"
  let s1 := { s with selectedFile := .obj audioFile }
  match createObjectURL (some audioBlob) s1 with
  | some (url, s2) => { s2 with audioURL := some url }
  | none => s1

/-- The handler `stopRecording`. With no recorder in the ref the first line throws. The
`audioChunks` that its `onstop` callback closes over is the constant of the render that built
the handler. -/
def stopRecording (s : AppState) : Outcome :=
  match s.mediaRecorderRef with
  | none => { state := s, thrown := some "TypeError" }
  | some r =>
    let r1 := r.stop
    let s1 := { s with mediaRecorderRef := some r1 }
    let s2 := { s1 with recording := false }
    { state := { s2 with mediaRecorderRef := some { r1 with onstop := some s.renderedAudioChunks } },
      thrown := none }

/-- The fixed message of a failed transcription. -/
def transcribeErrorMessage : String := "Error transcribing audio. Please try again."

/-- The handler `handleTranscribe`, with the endpoint as a function from the request to what
`fetch` and `response.json()` yield. Returns the state and the requests issued. Nothing
escapes it as an exception: outside the `try` block it only builds the `FormData`. -/
def handleTranscribe (VITE_API_URL : Option String) (fetch : Request → FetchResult)
    (s : AppState) : AppState × List Request :=
  match s.selectedFile with
  | .obj selectedFile =>
    let formData : FormData := [("audio", selectedFile)]
    let request : Request :=
      { url := uploadURL VITE_API_URL, method := "POST", body := formData }
    match fetch request with
    | .rejected => ({ s with error := transcribeErrorMessage }, [request])
    | .response none => ({ s with error := transcribeErrorMessage }, [request])
    | .response (some data) =>
      match data.getProp "transcript" with
      | some v => ({ s with transcript := v }, [request])
      | none => ({ s with error := transcribeErrorMessage }, [request])
  | _ => (s, [])

/-! ## Events of the recorder -/

/-- The recorder in the ref fires `dataavailable` with `data`. -/
def fireDataAvailable (data : Blob) (s : AppState) : AppState :=
  match s.mediaRecorderRef with
  | some r => if r.ondataavailable then ondataavailable data s else s
  | none => s

/-- The recorder in the ref fires its queued `stop` event. -/
def fireStop (s : AppState) : AppState :=
  match s.mediaRecorderRef with
  | some r =>
    if r.stopQueued then
      let s1 := { s with mediaRecorderRef := some { r with stopQueued := false } }
      match r.onstop with
      | some audioChunks => onstop audioChunks s1
      | none => s1
    else s
  | none => s

/-! ## The recording session of the specification -/

/-- The four session states of the specification. -/
inductive SessionState where
  | idle
  | recording
  | paused
  | stopped
  deriving DecidableEq, Repr

/-- The session state a component state is in: `idle` while no recorder was created, otherwise
the recorder's state, an inactive recorder being a stopped one (`startRecording` starts the
recorder it creates before it returns). -/
def sessionState (s : AppState) : SessionState :=
  match s.mediaRecorderRef with
  | none => .idle
  | some r =>
    match r.state with
    | .inactive => .stopped
    | .recording => .recording
    | .paused => .paused

/-- The transition of `pauseOrResume` in the specification. -/
def SessionState.pauseOrResume : SessionState → SessionState
  | .recording => .paused
  | .paused => .recording
  | .idle => .idle
  | .stopped => .stopped

/-! ## Requests and endpoints -/

/-- The request `handleTranscribe` issues for the file `f`. -/
def uploadRequest (VITE_API_URL : Option String) (f : File) : Request :=
  { url := uploadURL VITE_API_URL, method := "POST", body := [("audio", f)] }

/-- An endpoint whose network call fails. -/
def fetchRejects : Request → FetchResult := fun _ => .rejected

/-- An endpoint that answers every request with the JSON value `data`. -/
def fetchAnswers (data : JSON) : Request → FetchResult := fun _ => .response (some data)

/-! ## Traces -/

/-- The events the component reacts to. -/
inductive Event where
  | selectFile (file : Option File)
  | startRecording (getUserMedia : Except String Unit)
  | pauseOrResume
  | dataavailable (data : Blob)
  | stopRecording
  | stop
  | transcribe (VITE_API_URL : Option String) (fetch : Request → FetchResult)
  | render

/-- The state after one event. -/
def step (s : AppState) : Event → AppState
  | .selectFile file => (handleFileChange file s).state
  | .startRecording getUserMedia => (startRecording getUserMedia s).state
  | .pauseOrResume => pauseRecording s
  | .dataavailable data => fireDataAvailable data s
  | .stopRecording => (stopRecording s).state
  | .stop => fireStop s
  | .transcribe VITE_API_URL fetch => (handleTranscribe VITE_API_URL fetch s).1
  | .render => render s

/-- The state after a sequence of events. -/
def run (events : List Event) (s : AppState) : AppState := events.foldl step s

/-- The pairing of object URL and selected file: there is a URL exactly when a file is
selected, and it resolves to that file's blob. -/
def Paired (s : AppState) : Prop :=
  match s.selectedFile, s.audioURL with
  | .obj f, some url => url.target = f.toBlob
  | .obj _, none => False
  | _, some _ => False
  | _, none => True

/-! ## A recording session from start to finalization -/

/-- What happens between `startRecording` and `stopRecording` in a session: the recorder
delivers a chunk, the user presses pause, or React renders. -/
inductive SessionEvent where
  | dataavailable (data : Blob)
  | pauseOrResume
  | render

/-- A session event as an event of the component. -/
def SessionEvent.toEvent : SessionEvent → Event
  | .dataavailable data => .dataavailable data
  | .pauseOrResume => .pauseOrResume
  | .render => .render

/-- The chunks delivered in a session, in arrival order. -/
def delivered : List SessionEvent → List Blob
  | [] => []
  | .dataavailable data :: rest => data :: delivered rest
  | .pauseOrResume :: rest => delivered rest
  | .render :: rest => delivered rest

/-- The whole trace of one recording: start with the microphone granted, the session, the
stop request, chunks delivered after the request, and the recorder's `stop` event. -/
def recordingTrace (session : List SessionEvent) (late : List Blob) : List Event :=
  [.startRecording (.ok ())] ++ session.map SessionEvent.toEvent ++ [.stopRecording]
    ++ late.map Event.dataavailable ++ [.stop]

/-- A recorder is in the ref, it is recording or paused, and its chunk handler is installed. -/
def Active (s : AppState) : Prop :=
  ∃ r, s.mediaRecorderRef = some r ∧ r.state ≠ .inactive ∧ r.ondataavailable = true

/-! ## Sample values -/

/-- An MP3 file of three bytes. -/
def sampleMp3 : File := { content := [73, 68, 51], type := "audio/mpeg", name := "a.mp3" }

/-- A WAV file of two bytes. -/
def sampleWav : File := { content := [82, 73], type := "audio/wav", name := "a.wav" }

/-- A state in which `sampleMp3` is the selected file, with its object URL, an earlier
transcript and no error. -/
def sampleSelected : AppState :=
  { selectedFile := .obj sampleMp3
    error := ""
    audioURL := some { id := 0, target := sampleMp3.toBlob }
    recording := false
    audioChunks := []
    transcript := .ofJSON (.str "earlier")
    mediaRecorderRef := none
    nextObjectURL := 1
    renderedAudioChunks := [] }

/-- A first chunk of one byte. -/
def chunkOne : Blob := { content := [1], type := "audio/webm" }

/-- A second chunk of one byte. -/
def chunkTwo : Blob := { content := [2], type := "audio/webm" }

/-! # Theorems -/

/-! ## File selection -/

/-- C2: a file whose declared type is not `audio/mpeg` is rejected from every prior state:
the error message is set and both the selected file and the object URL are `null`. -/
theorem handleFileChange_rejects (f : File) (s : AppState) (h : f.type ≠ "audio/mpeg") :
    (handleFileChange (some f) s).state.error = "Only MP3 files are allowed." ∧
    (handleFileChange (some f) s).state.selectedFile = .null ∧
    (handleFileChange (some f) s).state.audioURL = none := by
  simp [handleFileChange, h]

/-- Witness of C2: a WAV file selected while an MP3 payload is current. -/
theorem handleFileChange_rejects_witness :
    sampleSelected.selectedFile = .obj sampleMp3 ∧
    (handleFileChange (some sampleWav) sampleSelected).state.error
      = "Only MP3 files are allowed." ∧
    (handleFileChange (some sampleWav) sampleSelected).state.selectedFile = .null ∧
    (handleFileChange (some sampleWav) sampleSelected).state.audioURL = none :=
  ⟨rfl, handleFileChange_rejects sampleWav sampleSelected (by decide)⟩

/-- C3: a file whose declared type is `audio/mpeg` becomes the selected file as it is, from
every prior state; a fresh object URL that resolves to it is issued, the error is the empty
string, and nothing is thrown. -/
theorem handleFileChange_accepts (f : File) (s : AppState) (h : f.type = "audio/mpeg") :
    (handleFileChange (some f) s).state.selectedFile = .obj f ∧
    (handleFileChange (some f) s).state.audioURL
      = some { id := s.nextObjectURL, target := f.toBlob } ∧
    (handleFileChange (some f) s).state.error = "" ∧
    (handleFileChange (some f) s).thrown = none := by
  simp [handleFileChange, createObjectURL, h]

/-- Witness of C3: an MP3 file selected in a state that shows an error and holds an earlier
payload. -/
theorem handleFileChange_accepts_witness :
    (handleFileChange (some sampleWav) sampleSelected).state.error ≠ "" ∧
    (handleFileChange (some sampleMp3)
        (handleFileChange (some sampleWav) sampleSelected).state).state.selectedFile
      = .obj sampleMp3 ∧
    (handleFileChange (some sampleMp3)
        (handleFileChange (some sampleWav) sampleSelected).state).state.error = "" :=
  ⟨by decide,
   (handleFileChange_accepts sampleMp3
      (handleFileChange (some sampleWav) sampleSelected).state rfl).1,
   (handleFileChange_accepts sampleMp3
      (handleFileChange (some sampleWav) sampleSelected).state rfl).2.2.1⟩

/-! ## Pause and resume -/

/-- C9: `pauseRecording` takes the session state along the specification's transition
(`recording` to `paused`, `paused` to `recording`, `idle` and `stopped` fixed), leaves the
chunk buffer, the selected file, the object URL, the error and the transcript as they were,
and applied twice gives back the state it started from. -/
theorem pauseRecording_toggles (s : AppState) :
    sessionState (pauseRecording s) = (sessionState s).pauseOrResume ∧
    (pauseRecording s).audioChunks = s.audioChunks ∧
    (pauseRecording s).selectedFile = s.selectedFile ∧
    (pauseRecording s).audioURL = s.audioURL ∧
    (pauseRecording s).error = s.error ∧
    (pauseRecording s).transcript = s.transcript ∧
    pauseRecording (pauseRecording s) = s := by
  obtain ⟨sf, er, au, rc, ch, tr, ref, nx, rch⟩ := s
  cases ref with
  | none => simp [pauseRecording, sessionState, SessionState.pauseOrResume]
  | some r =>
    obtain ⟨st, da, os, sq⟩ := r
    cases st <;>
      simp [pauseRecording, sessionState, SessionState.pauseOrResume,
        MediaRecorder.pause, MediaRecorder.resume]

/-! ## Transcription -/

/-- C5: with a selected file, when the `fetch` promise rejects or the body is not decodable
as JSON, the error becomes the fixed message and every other cell (transcript, selected file
and object URL among them) keeps its value. -/
theorem handleTranscribe_failure (VITE_API_URL : Option String) (fetch : Request → FetchResult)
    (s : AppState) (f : File) (hf : s.selectedFile = .obj f)
    (hfail : fetch (uploadRequest VITE_API_URL f) = .rejected ∨
             fetch (uploadRequest VITE_API_URL f) = .response none) :
    (handleTranscribe VITE_API_URL fetch s).1
        = { s with error := "Error transcribing audio. Please try again." } ∧
    (handleTranscribe VITE_API_URL fetch s).1.transcript = s.transcript ∧
    (handleTranscribe VITE_API_URL fetch s).1.selectedFile = s.selectedFile ∧
    (handleTranscribe VITE_API_URL fetch s).1.audioURL = s.audioURL := by
  unfold uploadRequest at hfail
  rcases hfail with h | h <;>
    simp [handleTranscribe, hf, h, transcribeErrorMessage]

/-- Witness of C5: the network call fails while `sampleMp3` is selected and an earlier
transcript is shown. -/
theorem handleTranscribe_failure_witness :
    (handleTranscribe (some "http://api") fetchRejects sampleSelected).1.error
        = "Error transcribing audio. Please try again." ∧
    (handleTranscribe (some "http://api") fetchRejects sampleSelected).1.transcript
        = .ofJSON (.str "earlier") :=
  ⟨congrArg AppState.error
      (handleTranscribe_failure (some "http://api") fetchRejects sampleSelected sampleMp3 rfl
        (Or.inl rfl)).1,
   (handleTranscribe_failure (some "http://api") fetchRejects sampleSelected sampleMp3 rfl
      (Or.inl rfl)).2.1⟩

/-- C7: with a selected file, when the endpoint answers with a JSON object whose `transcript`
member is the string `t`, the transcript becomes `t` and no other cell changes; the requests
issued are exactly one `POST` to `endpoint/upload` whose body has the single entry `audio`
carrying the selected file. -/
theorem handleTranscribe_success (endpoint : String) (fetch : Request → FetchResult)
    (s : AppState) (f : File) (members : List (String × JSON)) (t : String)
    (hf : s.selectedFile = .obj f)
    (hanswer : fetch { url := endpoint ++ "/upload", method := "POST", body := [("audio", f)] }
        = .response (some (.obj members)))
    (ht : (JSON.obj members).getProp "transcript" = some (.ofJSON (.str t))) :
    (handleTranscribe (some endpoint) fetch s).1 = { s with transcript := .ofJSON (.str t) } ∧
    (handleTranscribe (some endpoint) fetch s).2
        = [{ url := endpoint ++ "/upload", method := "POST", body := [("audio", f)] }] ∧
    (handleTranscribe (some endpoint) fetch s).1.selectedFile = .obj f := by
  simp [handleTranscribe, hf, uploadURL, hanswer, ht]

/-- Witness of C7: the endpoint answers `{"transcript": "hello world"}`. -/
theorem handleTranscribe_success_witness :
    (handleTranscribe (some "http://api")
        (fetchAnswers (.obj [("transcript", .str "hello world")])) sampleSelected).1.transcript
      = .ofJSON (.str "hello world") ∧
    (handleTranscribe (some "http://api")
        (fetchAnswers (.obj [("transcript", .str "hello world")])) sampleSelected).2
      = [{ url := "http://api/upload", method := "POST", body := [("audio", sampleMp3)] }] :=
  ⟨congrArg AppState.transcript
      (handleTranscribe_success "http://api"
        (fetchAnswers (.obj [("transcript", .str "hello world")])) sampleSelected sampleMp3
        [("transcript", .str "hello world")] "hello world" rfl rfl (by simp [JSON.getProp, List.lookup])).1,
   (handleTranscribe_success "http://api"
      (fetchAnswers (.obj [("transcript", .str "hello world")])) sampleSelected sampleMp3
      [("transcript", .str "hello world")] "hello world" rfl rfl (by simp [JSON.getProp, List.lookup])).2.1⟩

/-- C8: with no selected file (`null` or `undefined`), `handleTranscribe` issues no request
and returns the state it was given, whatever the endpoint would answer. -/
theorem handleTranscribe_noop (VITE_API_URL : Option String) (fetch : Request → FetchResult)
    (s : AppState) (h : s.selectedFile.truthy = false) :
    handleTranscribe VITE_API_URL fetch s = (s, []) := by
  unfold handleTranscribe
  cases hs : s.selectedFile with
  | null => rfl
  | undefined => rfl
  | obj f => simp [hs, JSRef.truthy] at h

/-- Witness of C8: the first render, where no file is selected. -/
theorem handleTranscribe_noop_witness :
    AppState.initial.selectedFile.truthy = false ∧
    handleTranscribe (some "http://api") fetchRejects AppState.initial
      = (AppState.initial, []) :=
  ⟨rfl, handleTranscribe_noop (some "http://api") fetchRejects AppState.initial rfl⟩

/-- C6, as stated, fails: the endpoint answers the JSON object `{}` while `sampleMp3` is
selected and an earlier transcript is shown. No error is set, and the transcript is
overwritten with `undefined`. -/
theorem handleTranscribe_malformed_counterexample :
    sampleSelected.selectedFile = .obj sampleMp3 ∧
    (JSON.obj []).getProp "transcript" = some .undefined ∧
    (handleTranscribe (some "http://api") (fetchAnswers (.obj [])) sampleSelected).1.error
      = "" ∧
    (handleTranscribe (some "http://api") (fetchAnswers (.obj [])) sampleSelected).1.transcript
      = .undefined ∧
    ¬ ((handleTranscribe (some "http://api") (fetchAnswers (.obj [])) sampleSelected).1.error
          = "Error transcribing audio. Please try again." ∧
       (handleTranscribe (some "http://api") (fetchAnswers (.obj []))
          sampleSelected).1.transcript = sampleSelected.transcript) := by
  refine ⟨rfl, rfl, rfl, rfl, ?_⟩
  rintro ⟨h, -⟩
  exact absurd h (by decide)

/-- C6, amended: with a selected file, when the body decodes as JSON but has no string member
`transcript`, only the value `null` is treated as an error (error set to the fixed message,
all else unchanged); for every other value the `transcript` read succeeds with a value that
is not a string, the transcript cell becomes that value, and the error and all other cells
keep their values. -/
theorem handleTranscribe_malformed (VITE_API_URL : Option String)
    (fetch : Request → FetchResult) (s : AppState) (f : File) (data : JSON)
    (hf : s.selectedFile = .obj f)
    (hanswer : fetch (uploadRequest VITE_API_URL f) = .response (some data))
    (hmal : ∀ t : String, data.getProp "transcript" ≠ some (.ofJSON (.str t))) :
    (data = .null →
      (handleTranscribe VITE_API_URL fetch s).1
        = { s with error := "Error transcribing audio. Please try again." }) ∧
    (data ≠ .null →
      ∃ v : JSValue, data.getProp "transcript" = some v ∧
        (∀ t : String, v ≠ .ofJSON (.str t)) ∧
        (handleTranscribe VITE_API_URL fetch s).1 = { s with transcript := v }) := by
  unfold uploadRequest at hanswer
  constructor
  · intro hnull
    subst hnull
    simp [handleTranscribe, hf, hanswer, JSON.getProp, transcribeErrorMessage]
  · intro hnn
    cases hp : data.getProp "transcript" with
    | none =>
      cases data <;> simp [JSON.getProp] at hp hnn
      split at hp <;> simp at hp
    | some v =>
      refine ⟨v, rfl, ?_, ?_⟩
      · intro t ht
        exact hmal t (by rw [hp, ht])
      · simp [handleTranscribe, hf, hanswer, hp]

/-- Witness of the amended C6: the endpoint answers `{"transcript": 5}`; the transcript cell
becomes the number and no error is set. -/
theorem handleTranscribe_malformed_witness :
    (handleTranscribe (some "http://api") (fetchAnswers (.obj [("transcript", .num 5)]))
        sampleSelected).1.transcript = .ofJSON (.num 5) ∧
    (handleTranscribe (some "http://api") (fetchAnswers (.obj [("transcript", .num 5)]))
        sampleSelected).1.error = "" := by
  obtain ⟨v, hv, -, hs⟩ :=
    (handleTranscribe_malformed (some "http://api")
      (fetchAnswers (.obj [("transcript", .num 5)])) sampleSelected sampleMp3
      (.obj [("transcript", .num 5)]) rfl rfl
      (by intro t; simp [JSON.getProp, List.lookup])).2 (by simp)
  have hv5 : v = .ofJSON (.num 5) := by
    simpa [JSON.getProp, List.lookup] using hv.symm
  subst hv5
  rw [hs]
  exact ⟨rfl, rfl⟩

/-! ## Recording and file selection side by side -/

/-- C4, as stated, fails: `startRecording` in a state where `sampleMp3` is the selected file
leaves it selected while the session is recording, and selecting `sampleMp3` during that
session leaves the session recording. -/
theorem startRecording_keeps_file_counterexample :
    sampleSelected.selectedFile = .obj sampleMp3 ∧
    (startRecording (.ok ()) sampleSelected).state.selectedFile = .obj sampleMp3 ∧
    sessionState (startRecording (.ok ()) sampleSelected).state = .recording ∧
    sessionState (handleFileChange (some sampleMp3)
      (startRecording (.ok ()) sampleSelected).state).state = .recording :=
  ⟨rfl, rfl, rfl, rfl⟩

/-- C4, amended: `startRecording` leaves the selected file and its object URL as they were,
whether or not the microphone is granted, and `handleFileChange` leaves the recorder, the
chunk buffer and the recording flag as they were, whatever is selected. -/
theorem startRecording_handleFileChange_frame (getUserMedia : Except String Unit)
    (file : Option File) (s : AppState) :
    (startRecording getUserMedia s).state.selectedFile = s.selectedFile ∧
    (startRecording getUserMedia s).state.audioURL = s.audioURL ∧
    (handleFileChange file s).state.mediaRecorderRef = s.mediaRecorderRef ∧
    (handleFileChange file s).state.audioChunks = s.audioChunks ∧
    (handleFileChange file s).state.recording = s.recording := by
  refine ⟨?_, ?_, ?_, ?_, ?_⟩
  · cases getUserMedia <;> rfl
  · cases getUserMedia <;> rfl
  all_goals
    cases file with
    | none => simp [handleFileChange, createObjectURL]
    | some f =>
      by_cases h : f.type = "audio/mpeg" <;> simp [handleFileChange, createObjectURL, h]

/-! ## The pairing of object URL and selected file -/

/-- Every event other than an empty selection made while an object URL exists keeps the
pairing. -/
theorem step_paired (s : AppState) (e : Event) (h : Paired s)
    (he : e = .selectFile none → s.audioURL = none) : Paired (step s e) := by
  obtain ⟨sf, er, au, rc, ch, tr, ref, nx, rch⟩ := s
  cases e with
  | selectFile file =>
    cases file with
    | none =>
      have hau : au = none := he rfl
      subst hau
      simp [step, handleFileChange, createObjectURL, Paired]
    | some f =>
      by_cases hty : f.type = "audio/mpeg" <;>
        simp [step, handleFileChange, createObjectURL, Paired, hty]
  | startRecording g => cases g <;> exact h
  | pauseOrResume =>
    cases ref with
    | none => exact h
    | some r =>
      simp only [step, pauseRecording]
      split
      · exact h
      · split <;> exact h
  | dataavailable data =>
    cases ref with
    | none => exact h
    | some r =>
      simp only [step, fireDataAvailable, ondataavailable]
      split
      · split <;> exact h
      · exact h
  | stopRecording =>
    cases ref with
    | none => exact h
    | some r => exact h
  | stop =>
    cases ref with
    | none => exact h
    | some r =>
      simp only [step, fireStop]
      split
      · cases hos : r.onstop with
        | none => exact h
        | some chunks => simp [onstop, createObjectURL, Paired, Blob.new, File.new]
      · exact h
  | transcribe env fetch =>
    cases sf with
    | null => exact h
    | undefined => exact h
    | obj f =>
      simp only [step, handleTranscribe]
      split
      · exact h
      · exact h
      · split <;> exact h
  | render => exact h

/-- C10 fails on an empty selection: from the first render, selecting `sampleMp3` and then
firing the change event with no file leaves `selectedFile` `undefined` while `audioURL` still
holds the URL issued for `sampleMp3`; the second handler run throws a `TypeError`. -/
theorem empty_selection_keeps_url :
    (run [.selectFile (some sampleMp3), .selectFile none] AppState.initial).selectedFile
      = .undefined ∧
    (run [.selectFile (some sampleMp3), .selectFile none] AppState.initial).audioURL
      = some { id := 0, target := sampleMp3.toBlob } ∧
    (handleFileChange none (run [.selectFile (some sampleMp3)] AppState.initial)).thrown
      = some "TypeError" ∧
    ¬ Paired (run [.selectFile (some sampleMp3), .selectFile none] AppState.initial) := by
  refine ⟨rfl, rfl, rfl, ?_⟩
  simp [run, step, handleFileChange, createObjectURL, Paired, sampleMp3, AppState.initial]

/-! ## Finalization of a recording -/

/-- Running a concatenation of traces runs them one after the other. -/
theorem run_append (xs ys : List Event) (s : AppState) :
    run (xs ++ ys) s = run ys (run xs s) := by
  simp [run, List.foldl_append]

/-- Running a trace runs its first event, then the rest. -/
theorem run_cons (e : Event) (es : List Event) (s : AppState) :
    run (e :: es) s = run es (step s e) := rfl

/-- A granted `startRecording` leaves an active recorder and an empty chunk buffer. -/
theorem startRecording_active (s : AppState) :
    Active (startRecording (.ok ()) s).state ∧
    (startRecording (.ok ()) s).state.audioChunks = [] := by
  refine ⟨⟨_, rfl, ?_, rfl⟩, rfl⟩
  simp [MediaRecorder.start]

/-- A session event keeps the recorder active and appends to the buffer exactly the bytes of
the chunk it delivers, if any. -/
theorem session_step_active (s : AppState) (e : SessionEvent) (h : Active s) :
    Active (step s e.toEvent) ∧
    (step s e.toEvent).audioChunks.flatMap Blob.content
      = s.audioChunks.flatMap Blob.content ++ (delivered [e]).flatMap Blob.content := by
  obtain ⟨r, hr, hst, hda⟩ := h
  cases e with
  | dataavailable data =>
    simp only [SessionEvent.toEvent, step, fireDataAvailable, hr, hda, if_true, ondataavailable,
      delivered]
    by_cases hsz : data.size > 0
    · simp only [hsz, if_true]
      exact ⟨⟨r, rfl, hst, hda⟩, by simp⟩
    · simp only [hsz, if_false]
      refine ⟨⟨r, hr, hst, hda⟩, ?_⟩
      have hnil : data.content = [] := by
        simpa [Blob.size] using hsz
      simp [hnil]
  | pauseOrResume =>
    simp only [SessionEvent.toEvent, step, pauseRecording, hr, delivered]
    by_cases hrec : r.state = .recording
    · simp only [hrec, if_true]
      exact ⟨⟨r.pause, rfl, by simp [MediaRecorder.pause], by simpa [MediaRecorder.pause]⟩,
        by simp⟩
    · have hp : r.state = .paused := by
        cases hs : r.state <;> simp_all
      simp only [hp, if_true]
      refine ⟨⟨r.resume, ?_, by simp [MediaRecorder.resume],
        by simpa [MediaRecorder.resume]⟩, by simp⟩
      simp
  | render =>
    exact ⟨⟨r, hr, hst, hda⟩, by simp [SessionEvent.toEvent, step, render, delivered]⟩

/-- A session keeps the recorder active; the bytes of the buffer grow by the bytes of the
delivered chunks, in order. -/
theorem session_run_active (session : List SessionEvent) (s : AppState) (h : Active s) :
    Active (run (session.map SessionEvent.toEvent) s) ∧
    (run (session.map SessionEvent.toEvent) s).audioChunks.flatMap Blob.content
      = s.audioChunks.flatMap Blob.content ++ (delivered session).flatMap Blob.content := by
  induction session generalizing s with
  | nil => exact ⟨h, by simp [run, delivered]⟩
  | cons e rest ih =>
    obtain ⟨hact, hch⟩ := session_step_active s e h
    obtain ⟨hact2, hch2⟩ := ih (step s e.toEvent) hact
    rw [List.map_cons, run_cons]
    refine ⟨hact2, ?_⟩
    rw [hch2, hch]
    cases e <;> simp [delivered]

/-- Chunk deliveries leave the recorder in the ref as it is. -/
theorem late_run_ref (late : List Blob) (s : AppState) :
    (run (late.map Event.dataavailable) s).mediaRecorderRef = s.mediaRecorderRef := by
  induction late generalizing s with
  | nil => rfl
  | cons d rest ih =>
    rw [List.map_cons, run_cons, ih]
    simp only [step, fireDataAvailable, ondataavailable]
    split
    · split
      · split <;> simp_all
      · rfl
    · rfl

/-- On an active recorder `stopRecording` queues the `stop` event and installs a handler that
holds the chunk buffer as last rendered. -/
theorem stopRecording_active (s : AppState) (h : Active s) :
    ∃ r, (stopRecording s).state.mediaRecorderRef = some r ∧ r.stopQueued = true ∧
      r.onstop = some s.renderedAudioChunks := by
  obtain ⟨r, hr, hst, -⟩ := h
  simp only [stopRecording, hr]
  refine ⟨_, rfl, ?_, rfl⟩
  cases hs : r.state <;> simp_all [MediaRecorder.stop]

/-- The queued `stop` event builds the recorded file and its URL from the chunks its handler
holds. -/
theorem fireStop_queued (s : AppState) (r : MediaRecorder) (chunks : List Blob)
    (hr : s.mediaRecorderRef = some r) (hq : r.stopQueued = true)
    (hos : r.onstop = some chunks) :
    (fireStop s).selectedFile
      = .obj (File.new [Blob.new chunks "audio/webm"] "recorded_audio.webm" "audio/webm") ∧
    (fireStop s).audioURL
      = some { id := s.nextObjectURL, target := Blob.new chunks "audio/webm" } := by
  simp [fireStop, hr, hq, hos, onstop, createObjectURL]

/-- C1 fails on a chunk that is delivered before the stop request but not yet rendered: from
the first render, after start, a first chunk, a render, a second chunk, the stop request and
the recorder's `stop` event, both chunks are in the `audioChunks` cell, yet the recorded file
holds the bytes of the first chunk only, where the concatenation of the delivered chunks is
`[1, 2]`. -/
theorem recording_drops_unrendered_chunk :
    delivered [.dataavailable chunkOne, .render, .dataavailable chunkTwo]
      = [chunkOne, chunkTwo] ∧
    (run (recordingTrace [.dataavailable chunkOne, .render, .dataavailable chunkTwo] [])
        AppState.initial).audioChunks = [chunkOne, chunkTwo] ∧
    (run (recordingTrace [.dataavailable chunkOne, .render, .dataavailable chunkTwo] [])
        AppState.initial).selectedFile
      = .obj { content := [1], type := "audio/webm", name := "recorded_audio.webm" } ∧
    (delivered [.dataavailable chunkOne, .render, .dataavailable chunkTwo]).flatMap Blob.content
      = [1, 2] :=
  ⟨rfl, rfl, rfl, rfl⟩

/-- When React renders right before the stop request, the recording is finalized as intended:
from every prior state, after a granted start, any interleaving of delivered chunks, pause
presses and renders, a render, the stop request, any chunks delivered after it and the
recorder's `stop` event, the selected file is `recorded_audio.webm` of type `audio/webm`
whose content is the concatenation, in arrival order, of exactly the chunks delivered before
the stop request, and the object URL resolves to a blob of that content. -/
theorem rendered_recording_finalizes (s0 : AppState) (session : List SessionEvent)
    (late : List Blob) :
    ∃ f : File, ∃ url : ObjectURL,
      (run (recordingTrace (session ++ [.render]) late) s0).selectedFile = .obj f ∧
      f.content = (delivered session).flatMap Blob.content ∧
      f.type = "audio/webm" ∧ f.name = "recorded_audio.webm" ∧
      (run (recordingTrace (session ++ [.render]) late) s0).audioURL = some url ∧
      url.target = f.toBlob := by
  obtain ⟨hact1, hch1⟩ := startRecording_active s0
  obtain ⟨hact2, hch2⟩ :=
    session_run_active session (startRecording (.ok ()) s0).state hact1
  have hact3 := (session_step_active _ .render hact2).1
  obtain ⟨r, hr, hq, hos⟩ := stopRecording_active _ hact3
  have hlate := late_run_ref late
    (stopRecording (step (run (session.map SessionEvent.toEvent)
      (startRecording (.ok ()) s0).state) SessionEvent.render.toEvent)).state
  obtain ⟨hsel, hurl⟩ := fireStop_queued _ r _ (hlate.trans hr) hq hos
  have hrun : run (recordingTrace (session ++ [.render]) late) s0
      = fireStop (run (late.map Event.dataavailable)
          (stopRecording (step (run (session.map SessionEvent.toEvent)
            (startRecording (.ok ()) s0).state) SessionEvent.render.toEvent)).state) := by
    simp [recordingTrace, run_append, run_cons, step, run, SessionEvent.toEvent]
  rw [hrun]
  refine ⟨_, _, hsel, ?_, rfl, rfl, hurl, ?_⟩
  · rw [hch1] at hch2
    simpa [File.new, Blob.new, SessionEvent.toEvent, step, render] using hch2
  · simp [File.new, Blob.new]

end App
